import Mathlib

/-!
Shallow embedding of the avi_lb_test repository (api_client.py, test_orchestrator.py,
main.py, config_loader.py) and verification of the frozen claims about it.

JSON values returned by the remote API are modelled by the inductive type Json,
with Json.null also standing for the Python value None. HTTP outcomes are modelled
by HttpResult: transport-level exceptions, responses whose body fails JSON parsing,
and responses with a parsed body. Every Python function that catches all exceptions
internally is modelled as a total Lean function; a caught exception shows up as the
value the except-branch returns (False or None). Logged message texts that carry no
control-flow weight are abbreviated.
-/

namespace AviLb

/-- Model of a parsed JSON document; null doubles as the Python value None. -/
inductive Json where
  | null
  | b (v : Bool)
  | s (v : String)
  | n (v : Int)
  | arr (elems : List Json)
  | obj (fields : List (String × Json))

/-- First value bound to a key in an object field list, with a default:
Python dict.get(key, default). Python dicts have unique keys, so first-match
lookup coincides with dict lookup. -/
def lookupD : List (String × Json) → String → Json → Json
  | [], _, dflt => dflt
  | (k, v) :: rest, key, dflt => if k == key then v else lookupD rest key dflt

/-- First value bound to a key, if any: models the combination of
the Python membership test (key in dict) with dict access. -/
def findEntry : List (String × Json) → String → Option Json
  | [], _ => none
  | (k, v) :: rest, key => if k == key then some v else findEntry rest key

/-- Python truthiness of a JSON value (None, False, empty string, 0, empty list
and empty dict are falsy). -/
def truthy : Json → Bool
  | .null => false
  | .b v => v
  | .s v => v != ""
  | .n v => v != 0
  | .arr l => !l.isEmpty
  | .obj f => !f.isEmpty

/-- Whether Python len() is defined on the value (sized values). -/
def pyHasLen : Json → Bool
  | .s _ => true
  | .arr _ => true
  | .obj _ => true
  | _ => false

/-- Python len() on sized values; unreachable for unsized ones in this development. -/
def pyLen : Json → Int
  | .s v => v.length
  | .arr l => l.length
  | .obj f => f.length
  | _ => 0

/-- Whether the value is a JSON object (a Python dict, on which .get is defined). -/
def Json.isObj : Json → Bool
  | .obj _ => true
  | _ => false

/-- Whether the Python slice v[:20] is defined on the value (strings and lists). -/
def sliceable : Json → Bool
  | .s _ => true
  | .arr _ => true
  | _ => false

/-- Python equality test of a JSON value against a string: only an equal string
compares equal (no cross-type equality between str and other JSON types). -/
def Json.eqStr : Json → String → Bool
  | .s v, t => v == t
  | _, _ => false

/-- Dict access j.get(key) with default None, on values known to be objects;
returns null on non-objects (only applied to stage-result dicts, which are
always objects in the source). -/
def jGet (j : Json) (key : String) : Json :=
  match j with
  | .obj fields => lookupD fields key .null
  | _ => .null

/-- Python str() rendering used only inside log strings; composite values are
abbreviated since no behavior depends on the rendered text. -/
def pyStr : Json → String
  | .null => "None"
  | .b true => "True"
  | .b false => "False"
  | .s v => v
  | .n v => toString v
  | .arr _ => "[...]"
  | .obj _ => "{...}"

/-- Outcome of one HTTP call made through the requests session: a transport-level
exception, a response whose .json() raises (unparseable body), or a response with
status code and parsed JSON body. -/
inductive HttpResult where
  | failure
  | badJson (status : Nat)
  | response (status : Nat) (body : Json)

/-- Mutable authentication state of APIClient: the bearer token field,
initially None (modelled as Json.null). -/
structure ClientState where
  token : Json

/-- APIClient.register from api_client.py lines 28-58: success on HTTP 200 or 409
(existing user is acceptable); any other status or a transport failure returns
False; the response body is never parsed. -/
def register : HttpResult → Bool
  | .failure => false
  | .badJson status => status == 200 || status == 409
  | .response status _ => status == 200 || status == 409

/-- APIClient.login from api_client.py lines 60-86. On HTTP 200 the body is parsed
and the token field is assigned to self.token before the log line slices it;
slicing raises on None and other unsliceable values, so the method then returns
False with the token already overwritten. Any other status, transport failure or
body-parse failure returns False with the token unchanged. -/
def login (st : ClientState) : HttpResult → ClientState × Bool
  | .failure => (st, false)
  | .badJson _ => (st, false)
  | .response status body =>
    if status == 200 then
      match body with
      | .obj fields =>
        let tok := lookupD fields "token" .null
        (⟨tok⟩, sliceable tok)
      | _ => (st, false)
    else (st, false)

/-- APIClient._get_headers from api_client.py lines 88-93: Content-Type always,
Authorization only when the token is truthy. -/
def get_headers (st : ClientState) : List (String × String) :=
  if truthy st.token then
    [("Content-Type", "application/json"), ("Authorization", "Bearer " ++ pyStr st.token)]
  else
    [("Content-Type", "application/json")]

/-- APIClient.get_tenants from api_client.py lines 95-115: on HTTP 200 a list body
is returned as-is and any other body is wrapped into a one-element list; any other
status, transport failure or parse failure returns None. -/
def get_tenants : HttpResult → Option Json
  | .failure => none
  | .badJson _ => none
  | .response status body =>
    if status == 200 then
      match body with
      | .arr xs => some (.arr xs)
      | other => some (.arr [other])
    else none

/-- APIClient.get_virtual_services from api_client.py lines 117-142: on HTTP 200,
an object body containing a results key yields the value under that key; otherwise a list
body is kept and any other body is wrapped into a one-element list. The log line
then computes len(services), which raises on unsized values (caught, None). -/
def get_virtual_services : HttpResult → Option Json
  | .failure => none
  | .badJson _ => none
  | .response status body =>
    if status == 200 then
      let services :=
        match body with
        | .obj fields =>
          match findEntry fields "results" with
          | some v => v
          | none => .arr [.obj fields]
        | .arr xs => .arr xs
        | other => .arr [other]
      if pyHasLen services then some services else none
    else none

/-- APIClient.get_service_engines from api_client.py lines 144-165: same
normalization as get_tenants. -/
def get_service_engines : HttpResult → Option Json
  | .failure => none
  | .badJson _ => none
  | .response status body =>
    if status == 200 then
      match body with
      | .arr xs => some (.arr xs)
      | other => some (.arr [other])
    else none

/-- APIClient.get_virtual_service_by_uuid from api_client.py lines 167-188:
parsed body on HTTP 200, None otherwise. -/
def get_virtual_service_by_uuid : HttpResult → Option Json
  | .response status body => if status == 200 then some body else none
  | _ => none

/-- APIClient.update_virtual_service from api_client.py lines 213-236:
parsed body on HTTP 200, None otherwise. -/
def update_virtual_service : HttpResult → Option Json
  | .response status body => if status == 200 then some body else none
  | _ => none

/-- The scan loop of get_virtual_service_by_name: first element whose name field
equals the query. Outer none models the AttributeError raised when an element is
not a dict; some none is loop exhaustion without a match. -/
def scanByName (name : String) : List Json → Option (Option Json)
  | [] => some none
  | .obj fields :: rest =>
    if (lookupD fields "name" .null).eqStr name then some (some (.obj fields))
    else scanByName name rest
  | _ :: _ => none

/-- APIClient.get_virtual_service_by_name from api_client.py lines 190-211:
calls get_virtual_services, scans a truthy listing for the first name match, and
returns None when the listing is absent or falsy, when no entry matches, or when
iteration raises (non-list listing or non-dict element, caught internally). -/
def get_virtual_service_by_name (r : HttpResult) (name : String) : Option Json :=
  match get_virtual_services r with
  | none => none
  | some services =>
    if truthy services then
      match services with
      | .arr l =>
        match scanByName name l with
        | some found => found
        | none => none
      | _ => none
    else none

/-- Environment for one orchestrator run: the HTTP outcome each endpoint yields.
The environment is deterministic per endpoint (repeated calls to the same
endpoint within one workflow see the same outcome). -/
structure Env where
  tenantsResp : HttpResult
  virtualServicesResp : HttpResult
  serviceEnginesResp : HttpResult
  vsByUuidResp : Json → HttpResult
  updateResp : Json → HttpResult

/-- Whether the stage-1 display loop (for vs in virtual_services: vs.get(...))
raises: it raises at the first iterated element that is not a dict. Iterating a
string yields characters and iterating a dict yields string keys, neither of
which has .get; unsized values are not iterable at all. -/
def iterRaisesNonObj : Json → Bool
  | .arr l => !(l.all Json.isObj)
  | .s v => v != ""
  | .obj f => !f.isEmpty
  | _ => true

/-- Whether stage 1 raises inside its try block: only via the virtual-services
display loop, which runs only when the fetched listing is truthy. -/
def vsLoopRaises (vss : Option Json) : Bool :=
  match vss with
  | none => false
  | some j => if truthy j then iterRaisesNonObj j else false

/-- Python count expression len(x) if x else 0 used by stage 1. -/
def pyCount : Option Json → Int
  | none => 0
  | some j => if truthy j then pyLen j else 0

/-- Python value of an optional fetch result (None when absent). -/
def optJson : Option Json → Json
  | none => .null
  | some j => j

/-- TestOrchestrator.stage_1_pre_fetcher from test_orchestrator.py lines 32-77:
fetches the three collections, builds the success result with truthiness-guarded
counts, then prints the virtual-services list; if that display loop raises, the
except branch replaces the result with a failed one carrying the exception
message (message text abbreviated here). -/
def stage_1_pre_fetcher (env : Env) : Json :=
  let tenants := get_tenants env.tenantsResp
  let vss := get_virtual_services env.virtualServicesResp
  let ses := get_service_engines env.serviceEnginesResp
  if vsLoopRaises vss then
    .obj [("status", .s "failed"), ("error", .s "object has no attribute get")]
  else
    .obj [("status", .s "success"),
          ("tenants_count", .n (pyCount tenants)),
          ("virtual_services_count", .n (pyCount vss)),
          ("service_engines_count", .n (pyCount ses)),
          ("tenants", optJson tenants),
          ("virtual_services", optJson vss),
          ("service_engines", optJson ses)]

/-- TestOrchestrator.stage_2_pre_validation from test_orchestrator.py lines
79-142: looks the target up by name; a falsy lookup result fails with not-found;
otherwise reads enabled (default False) and uuid (default None) and fails when
enabled is falsy, else succeeds recording uuid and enabled. The lookup only ever
returns None or a dict, so the non-dict branch is unreachable. -/
def stage_2_pre_validation (env : Env) (target : String) : Json :=
  match get_virtual_service_by_name env.virtualServicesResp target with
  | none => .obj [("status", .s "failed"), ("error", .s "Virtual service not found")]
  | some tv =>
    if truthy tv then
      match tv with
      | .obj fields =>
        let is_enabled := lookupD fields "enabled" (.b false)
        let uuid := lookupD fields "uuid" .null
        if !truthy is_enabled then
          .obj [("status", .s "failed"), ("error", .s "Virtual service is not enabled"),
                ("virtual_service", .obj fields)]
        else
          .obj [("status", .s "success"), ("virtual_service", .obj fields),
                ("uuid", uuid), ("enabled", is_enabled)]
      | _ => .obj [("status", .s "failed"), ("error", .s "object has no attribute get")]
    else .obj [("status", .s "failed"), ("error", .s "Virtual service not found")]

/-- TestOrchestrator.stage_3_task_trigger from test_orchestrator.py lines
144-201: PUT enabled=false; fails when the update returns None; otherwise reads
enabled from the response (default True) and fails when it is truthy. A non-dict
response body makes response.get raise, caught into a failed result. -/
def stage_3_task_trigger (env : Env) (uuid : Json) : Json :=
  match update_virtual_service (env.updateResp uuid) with
  | none => .obj [("status", .s "failed"), ("error", .s "Failed to update virtual service")]
  | some resp =>
    match resp with
    | .obj fields =>
      let is_enabled := lookupD fields "enabled" (.b true)
      if truthy is_enabled then
        .obj [("status", .s "failed"), ("error", .s "Virtual service was not disabled"),
              ("response", .obj fields)]
      else
        .obj [("status", .s "success"), ("response", .obj fields), ("enabled", is_enabled)]
    | _ => .obj [("status", .s "failed"), ("error", .s "object has no attribute get")]

/-- TestOrchestrator.stage_4_post_validation from test_orchestrator.py lines
203-259: re-fetches by uuid; fails when the fetch returns None; otherwise reads
enabled (default True) and fails when it is truthy. -/
def stage_4_post_validation (env : Env) (uuid : Json) : Json :=
  match get_virtual_service_by_uuid (env.vsByUuidResp uuid) with
  | none => .obj [("status", .s "failed"), ("error", .s "Failed to fetch virtual service")]
  | some resp =>
    match resp with
    | .obj fields =>
      let is_enabled := lookupD fields "enabled" (.b true)
      if truthy is_enabled then
        .obj [("status", .s "failed"), ("error", .s "Virtual service is still enabled"),
              ("response", .obj fields)]
      else
        .obj [("status", .s "success"), ("response", .obj fields), ("enabled", is_enabled)]
    | _ => .obj [("status", .s "failed"), ("error", .s "object has no attribute get")]

/-- The per-stage result slots of TestOrchestrator.test_results: None until the
stage has executed. -/
structure WorkflowState where
  pre_fetcher : Option Json
  pre_validation : Option Json
  task_trigger : Option Json
  post_validation : Option Json

/-- The four slots in the insertion order of the Python dict. -/
def stageList (st : WorkflowState) : List (Option Json) :=
  [st.pre_fetcher, st.pre_validation, st.task_trigger, st.post_validation]

/-- The all_success generator expression of _print_summary (test_orchestrator.py
lines 306-310): every non-None stage result is truthy and has status success. -/
def all_success (st : WorkflowState) : Bool :=
  (stageList st).all fun r =>
    match r with
    | none => true
    | some j => truthy j && (jGet j "status").eqStr "success"

/-- The overall verdict line of _print_summary (test_orchestrator.py lines
312-313). -/
def overall_status (st : WorkflowState) : String :=
  if all_success st then "PASSED" else "FAILED"

/-- TestOrchestrator.run_full_workflow from test_orchestrator.py lines 261-292:
stage 1, then stage 2; when stage 2 does not report success the method returns
the partial results at once, without calling _print_summary. Otherwise stage 3
and stage 4 both run with the uuid recorded by stage 2, the summary is printed,
and the full results are returned. The second component is the overall verdict
printed by _print_summary, None when no summary is printed. -/
def run_full_workflow (env : Env) (target : String) : WorkflowState × Option String :=
  let s1 := stage_1_pre_fetcher env
  let s2 := stage_2_pre_validation env target
  if !(jGet s2 "status").eqStr "success" then
    ({ pre_fetcher := some s1, pre_validation := some s2,
       task_trigger := none, post_validation := none }, none)
  else
    let uuid := jGet s2 "uuid"
    let s3 := stage_3_task_trigger env uuid
    let s4 := stage_4_post_validation env uuid
    let st : WorkflowState :=
      { pre_fetcher := some s1, pre_validation := some s2,
        task_trigger := some s3, post_validation := some s4 }
    (st, some (overall_status st))

/-- Outcome of locating and parsing the configuration file, the input to
ConfigLoader construction; an empty YAML document parses to None (doc null). -/
inductive ParseOutcome where
  | missingFile
  | yamlError
  | doc (j : Json)

/-- ConfigLoader.__init__ with _load_config from config_loader.py lines 14-35:
a missing file raises FileNotFoundError, a YAML parse error raises ValueError,
otherwise construction succeeds with self.config set to the parsed document. -/
def configLoaderInit : ParseOutcome → Except String Json
  | .missingFile => .error "Configuration file not found"
  | .yamlError => .error "Error parsing YAML configuration"
  | .doc j => .ok j

/-- Python self.config.get(key, default): defined only when the stored document
is a dict; on None or any non-dict document the attribute access raises
(AttributeError), modelled as an error value. -/
def pyDictGet (j : Json) (key : String) (dflt : Json) : Except String Json :=
  match j with
  | .obj fields => .ok (lookupD fields key dflt)
  | _ => .error "object has no attribute get"

/-- ConfigLoader.get_api_config (config_loader.py lines 37-39). -/
def get_api_config (c : Json) : Except String Json :=
  pyDictGet c "api" (.obj [])

/-- ConfigLoader.get_credentials (config_loader.py lines 41-43). -/
def get_credentials (c : Json) : Except String Json :=
  pyDictGet c "credentials" (.obj [])

/-- ConfigLoader.get_test_cases (config_loader.py lines 45-47). -/
def get_test_cases (c : Json) : Except String Json :=
  pyDictGet c "test_cases" (.arr [])

/-- ConfigLoader.get_target_virtual_service (config_loader.py lines 49-51). -/
def get_target_virtual_service (c : Json) : Except String Json :=
  pyDictGet c "target_virtual_service" (.s "backend-vs-t1r_1000-1")

/-- ConfigLoader.get_timeout (config_loader.py lines 53-55): chained dict.get
calls, each able to raise. -/
def get_timeout (c : Json) : Except String Json :=
  (pyDictGet c "api" (.obj [])).bind fun a => pyDictGet a "timeout" (.n 30)

/-- ConfigLoader.get_parallelism_method (config_loader.py lines 57-59). -/
def get_parallelism_method (c : Json) : Except String Json :=
  (pyDictGet c "parallelism" (.obj [])).bind fun p => pyDictGet p "method" (.s "threading")

/-- ConfigLoader.get_max_workers (config_loader.py lines 61-63). -/
def get_max_workers (c : Json) : Except String Json :=
  (pyDictGet c "parallelism" (.obj [])).bind fun p => pyDictGet p "max_workers" (.n 4)

/-- TestFramework.setup from main.py lines 32-73, as a function of the loaded
configuration document and of the HTTP outcomes of the register and login calls.
Any exception inside the try block (config accessors raising on a malformed
document) is caught and returns False. Missing or falsy base_url, username or
password return False before any network call. The register result is only
logged as a warning; setup then returns the login result on a fresh client. -/
def setup (config : Json) (regResp loginResp : HttpResult) : Bool :=
  match get_api_config config with
  | .error _ => false
  | .ok api_config =>
    match get_credentials config with
    | .error _ => false
    | .ok credentials =>
      match pyDictGet api_config "base_url" .null with
      | .error _ => false
      | .ok base_url =>
        match get_timeout config with
        | .error _ => false
        | .ok _timeout =>
          if !truthy base_url then false
          else
            match pyDictGet credentials "username" .null with
            | .error _ => false
            | .ok username =>
              if !truthy username then false
              else
                match pyDictGet credentials "password" .null with
                | .error _ => false
                | .ok password =>
                  if !truthy password then false
                  else
                    let _registered := register regResp
                    (login ⟨Json.null⟩ loginResp).2

/-- TestFramework.run_tests_sequentially from main.py lines 110-127: the loop
appends each outcome in input order. -/
def run_tests_sequentially (runOne : α → β) : List α → List β
  | [] => []
  | tc :: rest => runOne tc :: run_tests_sequentially runOne rest

/-- Completed-futures store of an executor run: tasks finish in the order given
by the completion trace, each depositing the value computed for its submission
index. Earlier entries are earlier completions. -/
def futuresStore (value : Nat → β) : List Nat → List (Nat × β)
  | [] => []
  | i :: rest => (i, value i) :: futuresStore value rest

/-- future.result() for the future created at submission index i: waits for and
reads the completed value of task i, None when task i never completes. -/
def futureResult (store : List (Nat × β)) (i : Nat) : Option β :=
  match store with
  | [] => none
  | (j, v) :: rest => if j == i then some v else futureResult rest i

/-- The collection loop for future in futures: results.append(future.result())
of main.py lines 145-146 and 166-167: the futures list is walked in creation
order, i.e. submission indexes 0, 1, 2, ...; asyncio.gather of line 185 returns
results in the same task-creation order. -/
def collectInSubmissionOrder (store : List (Nat × β)) : List Nat → Option (List β)
  | [] => some []
  | i :: rest =>
    match futureResult store i, collectInSubmissionOrder store rest with
    | some v, some vs => some (v :: vs)
    | _, _ => none

/-- Shared submit-then-collect shape of the three concurrent strategies: one
future per test case in list order, completions in an arbitrary trace order,
collection in submission order. -/
def poolRun [Inhabited α] (runOne : α → β) (tcs : List α) (trace : List Nat) :
    Option (List β) :=
  collectInSubmissionOrder (futuresStore (fun i => runOne (tcs.getD i default)) trace)
    (List.range tcs.length)

/-- TestFramework.run_tests_in_parallel_threading from main.py lines 129-148. -/
def run_tests_in_parallel_threading [Inhabited α] (runOne : α → β) (tcs : List α)
    (trace : List Nat) : Option (List β) :=
  poolRun runOne tcs trace

/-- TestFramework.run_tests_in_parallel_multiprocessing from main.py lines
150-169: same submit/collect shape; worker isolation does not affect ordering. -/
def run_tests_in_parallel_multiprocessing [Inhabited α] (runOne : α → β) (tcs : List α)
    (trace : List Nat) : Option (List β) :=
  poolRun runOne tcs trace

/-- TestFramework.run_tests_async from main.py lines 171-188: asyncio.gather
awaits all tasks and yields results in task-creation order. -/
def run_tests_async [Inhabited α] (runOne : α → β) (tcs : List α)
    (trace : List Nat) : Option (List β) :=
  poolRun runOne tcs trace

/-! Concrete environments used by individual claims. -/

/-- Environment where every listing is empty, so pre-validation cannot find the
target virtual service. -/
def envC1 : Env where
  tenantsResp := .response 200 (.arr [])
  virtualServicesResp := .response 200 (.arr [])
  serviceEnginesResp := .response 200 (.arr [])
  vsByUuidResp := fun _ => .failure
  updateResp := fun _ => .failure

/-- Environment where the target virtual service exists and is enabled, the
update call fails at transport level (stage 3 fails), and the by-uuid fetch
shows the service disabled. -/
def envC5 : Env where
  tenantsResp := .response 200 (.arr [])
  virtualServicesResp := .response 200
    (.arr [.obj [("name", .s "vs1"), ("uuid", .s "u1"), ("enabled", .b true)]])
  serviceEnginesResp := .response 200 (.arr [])
  vsByUuidResp := fun u =>
    match u with
    | .s v => if v == "u1" then .response 200 (.obj [("enabled", .b false)]) else .failure
    | _ => .failure
  updateResp := fun _ => .failure

/-- Environment where every fetch call returns normally but the virtual-service
listing contains a non-object element, so the stage-1 display loop raises. -/
def envC6 : Env where
  tenantsResp := .response 200 (.arr [])
  virtualServicesResp := .response 200 (.arr [.n 5])
  serviceEnginesResp := .response 200 (.arr [])
  vsByUuidResp := fun _ => .failure
  updateResp := fun _ => .failure

/-- Environment where the tenant fetch fails at transport level and the other
listings are empty. -/
def envC6w : Env where
  tenantsResp := .failure
  virtualServicesResp := .response 200 (.arr [])
  serviceEnginesResp := .response 200 (.arr [])
  vsByUuidResp := fun _ => .failure
  updateResp := fun _ => .failure

/-- Configuration document with base URL and both credentials present. -/
def cfgC7 : Json :=
  .obj [("api", .obj [("base_url", .s "http://lb.example")]),
        ("credentials", .obj [("username", .s "admin"), ("password", .s "secret")])]

/-- Virtual-service listing body with two named entries, from the spec example. -/
def rC4 : HttpResult :=
  .response 200 (.arr [.obj [("name", .s "a")], .obj [("name", .s "b")]])

/-- The two entries of rC4 as a list. -/
def lC4 : List Json :=
  [.obj [("name", .s "a")], .obj [("name", .s "b")]]

/-! Helper lemmas. -/

/-- Waiting on the future of submission index i reads the value task i deposited,
for every completion trace in which task i completes. -/
theorem futureResult_futuresStore (value : Nat → β) :
    ∀ (trace : List Nat) (i : Nat), i ∈ trace →
      futureResult (futuresStore value trace) i = some (value i) := by
  intro trace
  induction trace with
  | nil => intro i h; cases h
  | cons j rest ih =>
    intro i h
    by_cases hji : j = i
    · subst hji
      simp [futuresStore, futureResult]
    · have hmem : i ∈ rest := by
        rcases List.mem_cons.mp h with h1 | h1
        · exact absurd h1.symm hji
        · exact h1
      simp [futuresStore, futureResult, hji, ih i hmem]

/-- Collecting along a list of indexes whose futures all completed yields the
deposited values in that index order. -/
theorem collectInSubmissionOrder_eq_map (store : List (Nat × β)) (value : Nat → β) :
    ∀ l : List Nat, (∀ i ∈ l, futureResult store i = some (value i)) →
      collectInSubmissionOrder store l = some (l.map value) := by
  intro l
  induction l with
  | nil => intro _; rfl
  | cons i rest ih =>
    intro h
    have hi := h i (List.mem_cons_self i rest)
    have hrest := ih fun j hj => h j (List.mem_cons_of_mem i hj)
    simp [collectInSubmissionOrder, hi, hrest]

/-- Reading a list back by position over its index range reproduces the list. -/
theorem range_map_getD [Inhabited α] (l : List α) :
    (List.range l.length).map (fun i => l.getD i default) = l := by
  induction l with
  | nil => rfl
  | cons a t ih =>
    rw [List.length_cons, List.range_succ_eq_map, List.map_cons, List.map_map]
    simp only [Function.comp_def, List.getD_cons_zero, List.getD_cons_succ]
    rw [ih]

/-- The scan loop of get_virtual_service_by_name agrees with first-match search
when every listing element is an object. -/
theorem scanByName_all_obj (name : String) :
    ∀ l : List Json, (∀ j ∈ l, j.isObj = true) →
      scanByName name l = some (l.find? fun j => (jGet j "name").eqStr name) := by
  intro l
  induction l with
  | nil => intro _; rfl
  | cons j rest ih =>
    intro h
    have hj := h j (List.mem_cons_self j rest)
    have hrest := ih fun x hx => h x (List.mem_cons_of_mem j hx)
    cases j with
    | obj fields =>
      by_cases hp : (lookupD fields "name" Json.null).eqStr name = true
      · rw [List.find?_cons_of_pos _ (by simpa [jGet] using hp)]
        simp [scanByName, hp]
      · rw [List.find?_cons_of_neg _ (by simpa [jGet] using hp)]
        simp only [Bool.not_eq_true] at hp
        simp [scanByName, hp, hrest]
    | null => simp [Json.isObj] at hj
    | b v => simp [Json.isObj] at hj
    | s v => simp [Json.isObj] at hj
    | n v => simp [Json.isObj] at hj
    | arr elems => simp [Json.isObj] at hj

/-! Claim theorems. -/

/-- C1 (counterexample). At an environment whose listings are all empty, stage 2
reports failure, stages 3 and 4 stay absent, and the workflow returns without
printing any summary: the verdict component is none, not FAILED. This refutes
the claim as stated, which asserts that the textual summary reports an overall
verdict of FAILED: run_full_workflow returns before _print_summary on this path,
so no summary line is produced at all. -/
theorem claim1_counterexample :
    (jGet (stage_2_pre_validation envC1 "vs1") "status").eqStr "success" = false ∧
    (run_full_workflow envC1 "vs1").1.task_trigger = none ∧
    (run_full_workflow envC1 "vs1").1.post_validation = none ∧
    (run_full_workflow envC1 "vs1").2 = none :=
  ⟨rfl, rfl, rfl, rfl⟩

/-- C1 (amended). If stage 2 does not report success, the workflow stops
immediately: stages 3 and 4 remain absent in the returned result, no textual
summary is printed (the verdict component is none), and the overall verdict the
summary logic would compute on such a result is FAILED. -/
theorem claim1_stop_on_prevalidation_failure :
    ∀ (env : Env) (target : String),
      (jGet (stage_2_pre_validation env target) "status").eqStr "success" = false →
      (run_full_workflow env target).1.task_trigger = none ∧
      (run_full_workflow env target).1.post_validation = none ∧
      (run_full_workflow env target).2 = none ∧
      overall_status (run_full_workflow env target).1 = "FAILED" := by
  intro env target h
  simp only [run_full_workflow]
  rw [h]
  refine ⟨rfl, rfl, rfl, ?_⟩
  simp [overall_status, all_success, stageList, h]

/-- C1 (witness for the amended claim): the amended statement instantiated at
the all-empty environment. -/
theorem claim1_witness :
    (jGet (stage_2_pre_validation envC1 "vs2") "status").eqStr "success" = false ∧
    (run_full_workflow envC1 "vs2").1.task_trigger = none ∧
    (run_full_workflow envC1 "vs2").1.post_validation = none ∧
    (run_full_workflow envC1 "vs2").2 = none ∧
    overall_status (run_full_workflow envC1 "vs2").1 = "FAILED" := by
  have h := claim1_stop_on_prevalidation_failure envC1 "vs2" rfl
  exact ⟨rfl, h.1, h.2.1, h.2.2.1, h.2.2.2⟩

/-- C2. A transport failure, an unparseable body, or any non-200 status makes
login return failure with the client state unchanged, and _get_headers omits
the Authorization header whenever the token is unset. -/
theorem claim2_login_failure_token_unchanged :
    (∀ st : ClientState, login st .failure = (st, false)) ∧
    (∀ (st : ClientState) (code : Nat), login st (.badJson code) = (st, false)) ∧
    (∀ (st : ClientState) (code : Nat) (body : Json), code ≠ 200 →
      login st (.response code body) = (st, false)) ∧
    (∀ st : ClientState, st.token = Json.null →
      get_headers st = [("Content-Type", "application/json")]) := by
  refine ⟨fun st => rfl, fun st code => rfl, ?_, ?_⟩
  · intro st code body h
    have hc : (code == 200) = false := by
      rw [beq_eq_false_iff_ne]; exact h
    simp [login, hc]
  · intro st h
    simp [get_headers, h, truthy]

/-- C2 (witness): a 401 login against a fresh client leaves the token unset and
the headers without Authorization. -/
theorem claim2_witness :
    (401 : Nat) ≠ 200 ∧
    login ⟨Json.null⟩ (.response 401 (.obj [])) = (⟨Json.null⟩, false) ∧
    (ClientState.mk Json.null).token = Json.null ∧
    get_headers ⟨Json.null⟩ = [("Content-Type", "application/json")] := by
  refine ⟨by decide, ?_, rfl, ?_⟩
  · exact claim2_login_failure_token_unchanged.2.2.1 ⟨Json.null⟩ 401 (.obj []) (by decide)
  · exact claim2_login_failure_token_unchanged.2.2.2 ⟨Json.null⟩ rfl

/-- C3. On HTTP 200, get_virtual_services returns the inner list of a results
envelope, returns a list body as-is, and wraps an envelope-free object into a
one-element list; get_tenants and get_service_engines return a list body as-is
and wrap a bare object into a one-element list. -/
theorem claim3_listing_normalization :
    (∀ (fields : List (String × Json)) (l : List Json),
      findEntry fields "results" = some (.arr l) →
      get_virtual_services (.response 200 (.obj fields)) = some (.arr l)) ∧
    (∀ xs : List Json, get_virtual_services (.response 200 (.arr xs)) = some (.arr xs)) ∧
    (∀ fields : List (String × Json), findEntry fields "results" = none →
      get_virtual_services (.response 200 (.obj fields)) = some (.arr [.obj fields])) ∧
    (∀ xs : List Json, get_tenants (.response 200 (.arr xs)) = some (.arr xs)) ∧
    (∀ fields : List (String × Json),
      get_tenants (.response 200 (.obj fields)) = some (.arr [.obj fields])) ∧
    (∀ xs : List Json, get_service_engines (.response 200 (.arr xs)) = some (.arr xs)) ∧
    (∀ fields : List (String × Json),
      get_service_engines (.response 200 (.obj fields)) = some (.arr [.obj fields])) := by
  refine ⟨?_, fun xs => rfl, ?_, fun xs => rfl, fun fields => rfl, fun xs => rfl,
    fun fields => rfl⟩
  · intro fields l h
    simp [get_virtual_services, h, pyHasLen]
  · intro fields h
    simp [get_virtual_services, h, pyHasLen]

/-- C3 (witness): the normalization rules instantiated at concrete bodies. -/
theorem claim3_witness :
    findEntry [("results", Json.arr [.obj []])] "results" = some (.arr [.obj []]) ∧
    get_virtual_services (.response 200 (.obj [("results", .arr [.obj []])]))
      = some (.arr [.obj []]) ∧
    findEntry [("x", Json.n 1)] "results" = none ∧
    get_virtual_services (.response 200 (.obj [("x", .n 1)]))
      = some (.arr [.obj [("x", .n 1)]]) ∧
    get_tenants (.response 200 (.obj [("x", .n 1)])) = some (.arr [.obj [("x", .n 1)]]) := by
  refine ⟨rfl, ?_, rfl, ?_, ?_⟩
  · exact claim3_listing_normalization.1 [("results", .arr [.obj []])] [.obj []] rfl
  · exact claim3_listing_normalization.2.2.1 [("x", .n 1)] rfl
  · exact claim3_listing_normalization.2.2.2.2.1 [("x", .n 1)]

/-- C4. When get_virtual_services yields no listing, the by-name lookup is
absent; when it yields a list of objects, the lookup returns exactly the first
entry whose name field equals the query, absent when no entry matches. -/
theorem claim4_by_name_first_match :
    (∀ (r : HttpResult) (name : String), get_virtual_services r = none →
      get_virtual_service_by_name r name = none) ∧
    (∀ (r : HttpResult) (name : String) (l : List Json),
      get_virtual_services r = some (.arr l) → (∀ j ∈ l, j.isObj = true) →
      get_virtual_service_by_name r name
        = l.find? fun j => (jGet j "name").eqStr name) := by
  constructor
  · intro r name h
    unfold get_virtual_service_by_name
    rw [h]
  · intro r name l h hobj
    unfold get_virtual_service_by_name
    rw [h]
    cases l with
    | nil => rfl
    | cons a t =>
      simp [truthy, scanByName_all_obj name (a :: t) hobj]

/-- C4 (witness): the spec example, a listing with entries named a and b; the
query b returns the second entry and the query c returns absent. -/
theorem claim4_witness :
    get_virtual_services rC4 = some (.arr lC4) ∧
    (∀ j ∈ lC4, j.isObj = true) ∧
    get_virtual_service_by_name rC4 "b" = some (Json.obj [("name", Json.s "b")]) ∧
    get_virtual_service_by_name rC4 "c" = none := by
  refine ⟨rfl, by decide, ?_, ?_⟩
  · have h := claim4_by_name_first_match.2 rC4 "b" lC4 rfl (by decide)
    rw [h]; rfl
  · have h := claim4_by_name_first_match.2 rC4 "c" lC4 rfl (by decide)
    rw [h]; rfl

/-- C5. Whenever stage 2 reports success, the workflow records stage 3 run with
the identifier stage 2 produced, and stage 4 run with that same identifier; the
stage-4 slot is computed from the environment and identifier alone and is never
gated on the stage-3 outcome. -/
theorem claim5_stage4_not_gated :
    ∀ (env : Env) (target : String),
      (jGet (stage_2_pre_validation env target) "status").eqStr "success" = true →
      (run_full_workflow env target).1.task_trigger
        = some (stage_3_task_trigger env (jGet (stage_2_pre_validation env target) "uuid")) ∧
      (run_full_workflow env target).1.post_validation
        = some (stage_4_post_validation env (jGet (stage_2_pre_validation env target) "uuid")) := by
  intro env target h
  simp only [run_full_workflow]
  rw [h]
  exact ⟨rfl, rfl⟩

/-- C5 (witness): an environment where stage 2 succeeds and the update call then
fails, so stage 3 reports failed while stage 4 still runs with the same
identifier and succeeds. -/
theorem claim5_witness :
    (jGet (stage_2_pre_validation envC5 "vs1") "status").eqStr "success" = true ∧
    (run_full_workflow envC5 "vs1").1.task_trigger
      = some (stage_3_task_trigger envC5 (jGet (stage_2_pre_validation envC5 "vs1") "uuid")) ∧
    (run_full_workflow envC5 "vs1").1.post_validation
      = some (stage_4_post_validation envC5 (jGet (stage_2_pre_validation envC5 "vs1") "uuid")) ∧
    (jGet (stage_3_task_trigger envC5 (jGet (stage_2_pre_validation envC5 "vs1") "uuid"))
      "status").eqStr "failed" = true ∧
    (jGet (stage_4_post_validation envC5 (jGet (stage_2_pre_validation envC5 "vs1") "uuid"))
      "status").eqStr "success" = true := by
  have h := claim5_stage4_not_gated envC5 "vs1" rfl
  exact ⟨rfl, h.1, h.2, rfl, rfl⟩

/-- C6 (counterexample). At an environment where all three fetch calls return
normally (the client catches every exception internally, so no fetch call ever
raises), yet the virtual-service listing contains a non-object element, stage 1
reports failed: the failure comes from the display loop calling .get on that
element, not from a fetch call raising. This refutes the claim that stage 1
fails only when a fetch call itself raises. -/
theorem claim6_counterexample :
    get_tenants envC6.tenantsResp = some (.arr []) ∧
    get_virtual_services envC6.virtualServicesResp = some (.arr [.n 5]) ∧
    get_service_engines envC6.serviceEnginesResp = some (.arr []) ∧
    (jGet (stage_1_pre_fetcher envC6) "status").eqStr "failed" = true :=
  ⟨rfl, rfl, rfl, rfl⟩

/-- C6 (amended). Stage 1 reports success, with absent fetch results counted as
zero, whenever its virtual-services display loop does not raise (in particular
whenever every fetched virtual-service entry is an object); it reports failed
with the exception message when that loop raises on a malformed entry; and in no
case does the stage-1 outcome prevent the workflow from running stage 2. -/
theorem claim6_stage1_success_unless_display_raises :
    (∀ env : Env, vsLoopRaises (get_virtual_services env.virtualServicesResp) = false →
      (jGet (stage_1_pre_fetcher env) "status").eqStr "success" = true ∧
      (get_tenants env.tenantsResp = none →
        jGet (stage_1_pre_fetcher env) "tenants_count" = .n 0) ∧
      (get_virtual_services env.virtualServicesResp = none →
        jGet (stage_1_pre_fetcher env) "virtual_services_count" = .n 0) ∧
      (get_service_engines env.serviceEnginesResp = none →
        jGet (stage_1_pre_fetcher env) "service_engines_count" = .n 0)) ∧
    (∀ (env : Env) (target : String),
      (run_full_workflow env target).1.pre_validation
        = some (stage_2_pre_validation env target)) := by
  constructor
  · intro env h
    refine ⟨?_, ?_, ?_, ?_⟩
    · simp [stage_1_pre_fetcher, h, jGet, lookupD, Json.eqStr]
    · intro ht
      simp [stage_1_pre_fetcher, h, ht, jGet, lookupD, pyCount]
    · intro hv
      simp [stage_1_pre_fetcher, h, hv, jGet, lookupD, pyCount, vsLoopRaises]
    · intro hs
      simp [stage_1_pre_fetcher, h, hs, jGet, lookupD, pyCount]
  · intro env target
    simp only [run_full_workflow]
    cases hc : (jGet (stage_2_pre_validation env target) "status").eqStr "success" <;>
      simp [hc]

/-- C6 (witness for the amended claim): with a transport failure on the tenant
fetch and empty listings elsewhere, stage 1 succeeds with a zero tenant count,
and stage 2 still runs. -/
theorem claim6_witness :
    vsLoopRaises (get_virtual_services envC6w.virtualServicesResp) = false ∧
    get_tenants envC6w.tenantsResp = none ∧
    (jGet (stage_1_pre_fetcher envC6w) "status").eqStr "success" = true ∧
    jGet (stage_1_pre_fetcher envC6w) "tenants_count" = .n 0 ∧
    (run_full_workflow envC6w "vs1").1.pre_validation
      = some (stage_2_pre_validation envC6w "vs1") := by
  have h := claim6_stage1_success_unless_display_raises
  exact ⟨rfl, rfl, (h.1 envC6w rfl).1, (h.1 envC6w rfl).2.1 rfl, h.2 envC6w "vs1"⟩

/-- C7. Registration returns success exactly for HTTP status 200 or 409 and
failure on transport errors, never raising; the setup stage result does not
depend on the registration outcome at all, and with a complete configuration a
failed registration still proceeds to a successful login. -/
theorem claim7_register_warning_only :
    register .failure = false ∧
    (∀ code : Nat, register (.badJson code) = (code == 200 || code == 409)) ∧
    (∀ (code : Nat) (body : Json), register (.response code body) = (code == 200 || code == 409)) ∧
    (∀ (config : Json) (reg1 reg2 loginResp : HttpResult),
      setup config reg1 loginResp = setup config reg2 loginResp) ∧
    (∀ regResp : HttpResult,
      setup cfgC7 regResp (.response 200 (.obj [("token", .s "tok")])) = true) := by
  exact ⟨rfl, fun code => rfl, fun code body => rfl, fun config r1 r2 lr => rfl,
    fun regResp => rfl⟩

/-- C9. A 200 login response whose object body lacks a token field makes login
return failure, yet the previously established bearer token has already been
overwritten with None: the stored token is no longer truthy afterwards. -/
theorem claim9_token_clobbered_on_missing_field :
    truthy (ClientState.mk (Json.s "oldtoken")).token = true ∧
    login ⟨Json.s "oldtoken"⟩ (.response 200 (.obj [("user", .s "alice")]))
      = (⟨Json.null⟩, false) ∧
    truthy Json.null = false :=
  ⟨rfl, rfl, rfl⟩

/-- C10. An existing configuration file parsing to an empty document (None)
constructs successfully, and every accessor then raises instead of returning its
documented default. -/
theorem claim10_empty_document_accessors_raise :
    configLoaderInit (.doc .null) = .ok .null ∧
    get_api_config .null = .error "object has no attribute get" ∧
    get_credentials .null = .error "object has no attribute get" ∧
    get_test_cases .null = .error "object has no attribute get" ∧
    get_target_virtual_service .null = .error "object has no attribute get" ∧
    get_timeout .null = .error "object has no attribute get" ∧
    get_parallelism_method .null = .error "object has no attribute get" ∧
    get_max_workers .null = .error "object has no attribute get" :=
  ⟨rfl, rfl, rfl, rfl, rfl, rfl, rfl, rfl⟩

/-- C8. Batch execution returns per-test-case outcomes in submission order under
all four strategies: the sequential loop appends in input order, and each
pool-style strategy (threading, multiprocessing, asyncio) collects by waiting on
the futures in creation order, so for every completion trace that completes all
submitted tasks the result list equals the input-order map. -/
theorem claim8_batch_submission_order [Inhabited α] (runOne : α → β) :
    (∀ tcs : List α, run_tests_sequentially runOne tcs = tcs.map runOne) ∧
    (∀ (tcs : List α) (trace : List Nat), (∀ i, i < tcs.length → i ∈ trace) →
      run_tests_in_parallel_threading runOne tcs trace = some (tcs.map runOne) ∧
      run_tests_in_parallel_multiprocessing runOne tcs trace = some (tcs.map runOne) ∧
      run_tests_async runOne tcs trace = some (tcs.map runOne)) := by
  constructor
  · intro tcs
    induction tcs with
    | nil => rfl
    | cons a t ih => simp [run_tests_sequentially, ih]
  · intro tcs trace hcov
    have hpool : poolRun runOne tcs trace = some (tcs.map runOne) := by
      unfold poolRun
      have h1 : ∀ i ∈ List.range tcs.length,
          futureResult (futuresStore (fun i => runOne (tcs.getD i default)) trace) i
            = some (runOne (tcs.getD i default)) := by
        intro i hi
        exact futureResult_futuresStore _ trace i (hcov i (List.mem_range.mp hi))
      rw [collectInSubmissionOrder_eq_map _ _ _ h1]
      have h2 : (List.range tcs.length).map (fun i => runOne (tcs.getD i default))
          = ((List.range tcs.length).map (fun i => tcs.getD i default)).map runOne := by
        rw [List.map_map]
        rfl
      rw [h2, range_map_getD]
    exact ⟨hpool, hpool, hpool⟩

/-- C8 (witness): three distinct test cases with a staggered completion trace
(task 2 first, then 0, then 1) still yield results in submission order under all
four strategies. -/
theorem claim8_witness :
    (∀ i, i < ([7, 8, 9] : List Nat).length → i ∈ ([2, 0, 1] : List Nat)) ∧
    run_tests_sequentially (fun i : Nat => i * 10) [7, 8, 9] = [70, 80, 90] ∧
    run_tests_in_parallel_threading (fun i : Nat => i * 10) [7, 8, 9] [2, 0, 1]
      = some [70, 80, 90] ∧
    run_tests_in_parallel_multiprocessing (fun i : Nat => i * 10) [7, 8, 9] [2, 0, 1]
      = some [70, 80, 90] ∧
    run_tests_async (fun i : Nat => i * 10) [7, 8, 9] [2, 0, 1] = some [70, 80, 90] := by
  have h := claim8_batch_submission_order (fun i : Nat => i * 10)
  have hc : ∀ i, i < ([7, 8, 9] : List Nat).length → i ∈ ([2, 0, 1] : List Nat) := by decide
  have hp := h.2 [7, 8, 9] [2, 0, 1] hc
  exact ⟨hc, h.1 [7, 8, 9], hp.1, hp.2.1, hp.2.2⟩
